import Mathlib

/-!
Verification of the tiny-kingdoms wave-composition engine and damage model.

This file is a shallow embedding of the TypeScript sources:
  * `src/config/damage.config.ts`  (damage types, resistance tables, `calculateEffectiveDamage`)
  * `src/config/enemies.config.ts` (the enemy archetype catalog)
  * `src/config/waves.config.ts`   (wave themes)
  * the `WaveSystemV2` class (wave scaling, themed composition, boss insertion,
    spawn timers, pause/resume/clear).

JavaScript numbers are modelled as exact rationals (`ℚ`); `Math.floor` is `Int.floor`,
`Math.round` is `⌊x + 1/2⌋` (JS rounds half toward +∞).  The transcendental calls
`Math.log` and `Math.pow` are passed in as oracle parameters (`jsLog`, `jsPow`):
every theorem below holds for all values of these oracles, hence in particular for
the real logarithm/power.  `Phaser.Utils.Array.Shuffle` is modelled as an oracle
`sh : ℕ → List String → List String` indexed by the call counter; theorems assume
only that each call returns a permutation of its input.  `Phaser.Math.RND.pick`
is modelled by an externally supplied index.
-/

namespace TinyKingdoms

/-- JS `Math.round`: round half up. -/
def jsRound (q : ℚ) : ℤ := ⌊q + 1 / 2⌋

-- ===== damage.config.ts =====

/-- The `DamageType` enum of damage.config.ts. -/
inductive DamageType
  | fire
  | physical
  | ice
  | light
  | pierce
  | void
deriving DecidableEq

/-- The `EnemyType` enum of damage.config.ts (category tags). -/
inductive EnemyType
  | swarm
  | beast
  | armored
  | undead
  | demon
  | elemental
  | flying
  | tank
  | boss
  | dragon
  | aquatic
  | humanoid
  | construct
deriving DecidableEq

/-- `TowerDamageProfile` of damage.config.ts.  `ratioPrimary` is the source's
`primaryRatio` field. -/
structure TowerDamageProfile where
  primary : DamageType
  secondary : Option DamageType
  ratioPrimary : ℚ
deriving DecidableEq

/-- The `TOWER_DAMAGE_PROFILES` record of damage.config.ts, as a partial map
from tower id to profile. -/
def TOWER_DAMAGE_PROFILES (towerId : String) : Option TowerDamageProfile :=
  match towerId with
  | "ember_watch" => some ⟨DamageType.fire, none, 1⟩
  | "rockbound_bastion" => some ⟨DamageType.physical, none, 1⟩
  | "frostcoil_tower" => some ⟨DamageType.ice, none, 1⟩
  | "sunflare_cannon" => some ⟨DamageType.light, some DamageType.fire, 0.7⟩
  | "ironspike_launcher" => some ⟨DamageType.pierce, some DamageType.physical, 0.75⟩
  | "pyrehold" => some ⟨DamageType.fire, some DamageType.physical, 0.65⟩
  | "void_obelisk" => some ⟨DamageType.void, none, 1⟩
  | "stone_mortar" => some ⟨DamageType.physical, some DamageType.pierce, 0.8⟩
  | "dread_pyre" => some ⟨DamageType.void, some DamageType.fire, 0.6⟩
  | _ => none

/-- The `ENEMY_DAMAGE_MULTIPLIERS` table: resistance multiplier of a category
tag against a damage type. -/
def ENEMY_DAMAGE_MULTIPLIERS (t : EnemyType) (d : DamageType) : ℚ :=
  match t, d with
  | .swarm, .fire => 1.6
  | .swarm, .physical => 1.2
  | .swarm, .ice => 1.4
  | .swarm, .light => 1.3
  | .swarm, .pierce => 0.7
  | .swarm, .void => 0.9
  | .beast, .fire => 1.5
  | .beast, .physical => 1.0
  | .beast, .ice => 1.2
  | .beast, .light => 1.0
  | .beast, .pierce => 1.3
  | .beast, .void => 0.8
  | .armored, .fire => 1.2
  | .armored, .physical => 0.5
  | .armored, .ice => 1.0
  | .armored, .light => 1.0
  | .armored, .pierce => 1.8
  | .armored, .void => 1.0
  | .undead, .fire => 1.5
  | .undead, .physical => 0.7
  | .undead, .ice => 0.5
  | .undead, .light => 1.8
  | .undead, .pierce => 0.6
  | .undead, .void => 0.5
  | .demon, .fire => 0.5
  | .demon, .physical => 1.0
  | .demon, .ice => 1.5
  | .demon, .light => 1.8
  | .demon, .pierce => 1.1
  | .demon, .void => 0.7
  | .elemental, .fire => 0.8
  | .elemental, .physical => 0.6
  | .elemental, .ice => 0.8
  | .elemental, .light => 1.3
  | .elemental, .pierce => 0.4
  | .elemental, .void => 1.5
  | .flying, .fire => 1.3
  | .flying, .physical => 0.8
  | .flying, .ice => 1.4
  | .flying, .light => 1.0
  | .flying, .pierce => 1.6
  | .flying, .void => 1.0
  | .tank, .fire => 1.1
  | .tank, .physical => 0.6
  | .tank, .ice => 0.9
  | .tank, .light => 1.0
  | .tank, .pierce => 1.4
  | .tank, .void => 1.2
  | .boss, .fire => 1.1
  | .boss, .physical => 1.1
  | .boss, .ice => 1.1
  | .boss, .light => 1.2
  | .boss, .pierce => 1.2
  | .boss, .void => 1.5
  | .dragon, .fire => 0.3
  | .dragon, .physical => 0.7
  | .dragon, .ice => 1.6
  | .dragon, .light => 1.0
  | .dragon, .pierce => 1.4
  | .dragon, .void => 1.2
  | .aquatic, .fire => 0.6
  | .aquatic, .physical => 1.0
  | .aquatic, .ice => 1.7
  | .aquatic, .light => 1.4
  | .aquatic, .pierce => 1.2
  | .aquatic, .void => 0.9
  | .humanoid, .fire => 1.2
  | .humanoid, .physical => 0.9
  | .humanoid, .ice => 1.1
  | .humanoid, .light => 1.3
  | .humanoid, .pierce => 1.2
  | .humanoid, .void => 0.7
  | .construct, .fire => 0.6
  | .construct, .physical => 1.8
  | .construct, .ice => 0.7
  | .construct, .light => 0.5
  | .construct, .pierce => 0.8
  | .construct, .void => 0.4

/-- The per-tag blended multiplier computed inside `calculateEffectiveDamage`
(local variable `typeMultiplier` in the source): primary contribution plus,
when a secondary damage type is set, the secondary contribution. -/
def typeMultiplier (p : TowerDamageProfile) (t : EnemyType) : ℚ :=
  let base := ENEMY_DAMAGE_MULTIPLIERS t p.primary * p.ratioPrimary
  match p.secondary with
  | some s => base + ENEMY_DAMAGE_MULTIPLIERS t s * (1 - p.ratioPrimary)
  | none => base

/-- `calculateEffectiveDamage` of damage.config.ts.  Note that both running
maxima start at `1.0` and are only replaced by a strictly better/worse value,
exactly as the two loops in the source do. -/
def calculateEffectiveDamage (baseDamage : ℚ) (towerId : String)
    (enemyTypes : List EnemyType) : ℚ :=
  match TOWER_DAMAGE_PROFILES towerId with
  | none => baseDamage
  | some damageProfile =>
    let bestMultiplier := enemyTypes.foldl
      (fun b t =>
        let m := typeMultiplier damageProfile t
        if b < m then m else b) 1
    let worstMultiplier := enemyTypes.foldl
      (fun w t =>
        let m := typeMultiplier damageProfile t
        if m < w then m else w) 1
    let finalMultiplier :=
      if 1 < enemyTypes.length then (bestMultiplier + worstMultiplier) / 2
      else bestMultiplier
    ((⌊baseDamage * finalMultiplier⌋ : ℤ) : ℚ)

/-- The maximum of the blended multipliers over a non-empty tag list
`t :: ts` (the spec's `best`). -/
def bestBlendOver (p : TowerDamageProfile) (t : EnemyType) (ts : List EnemyType) : ℚ :=
  ts.foldl (fun b x => max b (typeMultiplier p x)) (typeMultiplier p t)

/-- The minimum of the blended multipliers over a non-empty tag list
`t :: ts` (the spec's `worst`). -/
def worstBlendOver (p : TowerDamageProfile) (t : EnemyType) (ts : List EnemyType) : ℚ :=
  ts.foldl (fun w x => min w (typeMultiplier p x)) (typeMultiplier p t)

-- ===== enemies.config.ts =====

/-- `EnemyConfig` of enemies.config.ts.  The presentation-only members
(`animations`, `abilities`) are omitted; all stat fields are kept. -/
structure EnemyConfig where
  id : String
  name : String
  spriteKey : String
  health : ℚ
  speed : ℚ
  damage : ℚ
  reward : ℚ
  scale : ℚ
  enemyTypes : List EnemyType
  unlockWave : ℕ
  tags : List String
deriving DecidableEq

/-- The `ENEMY_CONFIGS` record of enemies.config.ts, as a key/value list in
the source's insertion order (JS object key order). -/
def ENEMY_CONFIGS : List (String × EnemyConfig) :=
  [ ("goblin", ⟨"goblin", "Torch Goblin", "torch_goblin", 40, 45, 1, 8, 0.5,
      [.swarm], 1, ["light", "swarm"]⟩)
  , ("tnt_runner", ⟨"tnt_runner", "TNT Runner", "tnt_goblin", 25, 65, 1, 6, 0.5,
      [.swarm], 1, ["fast", "swarm", "light"]⟩)
  , ("barrel_bomber", ⟨"barrel_bomber", "Shadow Goblin", "torch_goblin_purple", 35, 55, 1, 7, 0.5,
      [.swarm], 2, ["shadow", "swarm"]⟩)
  , ("footman", ⟨"footman", "Red Footman", "pawn_red", 30, 48, 1, 7, 0.5,
      [.humanoid, .armored], 2, ["light", "swarm"]⟩)
  , ("goblin_blue", ⟨"goblin_blue", "Frost Goblin", "torch_goblin_blue", 45, 42, 1, 9, 0.5,
      [.swarm], 3, ["light", "swarm", "frost"]⟩)
  , ("goblin_yellow", ⟨"goblin_yellow", "Desert Goblin", "torch_goblin_yellow", 50, 40, 1, 10, 0.5,
      [.swarm], 4, ["light", "swarm"]⟩)
  , ("tnt_runner_blue", ⟨"tnt_runner_blue", "Winged Runner", "tnt_goblin_blue", 30, 62, 1, 7, 0.5,
      [.swarm, .flying], 3, ["fast", "swarm", "flying"]⟩)
  , ("barrel_bomber_purple", ⟨"barrel_bomber_purple", "Void Runner", "tnt_goblin_purple", 45, 50, 1, 10, 0.5,
      [.swarm, .undead], 4, ["shadow", "undead"]⟩)
  , ("archer", ⟨"archer", "Red Archer", "archer_red", 55, 35, 1, 12, 0.5,
      [.humanoid, .armored], 3, ["ranged", "light"]⟩)
  , ("warrior", ⟨"warrior", "Red Warrior", "warrior_red", 70, 38, 1, 14, 0.5,
      [.armored, .humanoid], 3, ["armored"]⟩)
  , ("rogue", ⟨"rogue", "Purple Rogue", "pawn_purple", 45, 58, 2, 15, 0.5,
      [.humanoid, .undead], 5, ["fast", "light"]⟩)
  , ("dark_knight", ⟨"dark_knight", "Dark Knight", "warrior_purple", 80, 30, 2, 16, 0.5,
      [.undead, .armored], 5, ["armored", "undead"]⟩)
  , ("berserker", ⟨"berserker", "Yellow Berserker", "warrior_yellow", 100, 28, 2, 18, 0.55,
      [.beast, .tank], 5, ["armored", "beast"]⟩)
  , ("iron_guard", ⟨"iron_guard", "Iron Golem", "warrior_blue", 150, 20, 2, 22, 0.55,
      [.construct, .tank], 8, ["construct", "shield"]⟩)
  , ("elite_scout", ⟨"elite_scout", "Elite Scout", "pawn_yellow", 90, 40, 2, 18, 0.5,
      [.armored, .humanoid], 8, ["fast", "armored"]⟩)
  , ("shadow_archer", ⟨"shadow_archer", "Shadow Archer", "archer_purple", 80, 28, 2, 25, 0.5,
      [.elemental, .undead], 10, ["magic", "ranged"]⟩)
  , ("frost_archer", ⟨"frost_archer", "Frost Archer", "archer_blue", 75, 32, 2, 20, 0.5,
      [.aquatic], 10, ["ranged", "frost"]⟩)
  , ("warlord", ⟨"warlord", "Warlord", "warrior_red", 400, 18, 5, 60, 0.85,
      [.boss, .tank], 10, ["boss", "armored"]⟩)
  , ("dark_lord", ⟨"dark_lord", "Dark Lord", "warrior_purple", 600, 22, 8, 100, 1.0,
      [.boss, .demon, .undead], 15, ["boss", "demon", "undead"]⟩) ]

/-- `ENEMY_CONFIGS[enemyId]`: lookup by key. -/
def lookupEnemyConfig (enemyId : String) : Option EnemyConfig :=
  (ENEMY_CONFIGS.find? (fun p => p.1 == enemyId)).map (fun p => p.2)

/-- The `WaveSystemV2.enemyTypes` field: `Object.keys(ENEMY_CONFIGS)`. -/
def waveSystemEnemyIds : List String := ENEMY_CONFIGS.map (fun p => p.1)

/-- `config.enemyTypes?.some(t => t === 'boss')`. -/
def isBossConfig (c : EnemyConfig) : Bool := c.enemyTypes.contains EnemyType.boss

/-- Whether an enemy id denotes a boss archetype (missing ids count as
non-boss, matching the guarded lookups in the source). -/
def isBossId (enemyId : String) : Bool :=
  match lookupEnemyConfig enemyId with
  | some c => isBossConfig c
  | none => false

/-- `WaveSystemV2.getAvailableEnemyTypes`: archetypes unlocked at the wave,
bosses excluded, falling back to `['goblin']` when empty. -/
def getAvailableEnemyTypes (wave : ℕ) : List String :=
  let available := waveSystemEnemyIds.filter (fun enemyId =>
    match lookupEnemyConfig enemyId with
    | some config => decide (config.unlockWave ≤ wave) && !(isBossConfig config)
    | none => false)
  if available.isEmpty then ["goblin"] else available

/-- `WaveSystemV2.getAvailableBossTypes`: boss archetypes unlocked at the wave. -/
def getAvailableBossTypes (wave : ℕ) : List String :=
  waveSystemEnemyIds.filter (fun enemyId =>
    match lookupEnemyConfig enemyId with
    | some config => decide (config.unlockWave ≤ wave) && isBossConfig config
    | none => false)

-- ===== waves.config.ts =====

/-- `WaveTheme` of waves.config.ts.  The three ratio fields keep the source's
meaning (`focusRatio`/`supportRatio`/`wildcardRatio`). -/
structure WaveTheme where
  id : String
  label : String
  focusTypes : List EnemyType
  supportTypes : List EnemyType
  wildcardTypes : List EnemyType
  ratioFocus : ℚ
  ratioSupport : ℚ
  ratioWildcard : ℚ
  segmentCount : ℕ
  spawnIntervalMultiplier : ℚ
deriving DecidableEq

/-- `EARLY_WAVE_THEMES` of waves.config.ts (hand-authored waves 1-4). -/
def EARLY_WAVE_THEMES (wave : ℕ) : Option WaveTheme :=
  match wave with
  | 1 => some ⟨"intro_swarm", "Intro Swarm", [.swarm], [.humanoid], [], 0.85, 0.15, 0, 1, 1.05⟩
  | 2 => some ⟨"swarm_mix", "Swarm Mix", [.swarm], [.armored], [], 0.7, 0.3, 0, 2, 1.0⟩
  | 3 => some ⟨"armored_check", "Armored Check", [.armored], [.swarm], [], 0.6, 0.4, 0, 2, 1.0⟩
  | 4 => some ⟨"flying_intro", "Flying Intro", [.flying], [.swarm], [], 0.55, 0.45, 0, 2, 0.95⟩
  | _ => none

/-- The first entry of `WAVE_THEME_CYCLE`. -/
def THEME_SWARM_PRESSURE : WaveTheme :=
  ⟨"swarm_pressure", "Swarm Pressure", [.swarm], [.humanoid], [.armored], 0.6, 0.2, 0.2, 3, 0.92⟩

/-- `WAVE_THEME_CYCLE` of waves.config.ts. -/
def WAVE_THEME_CYCLE : List WaveTheme :=
  [ THEME_SWARM_PRESSURE
  , ⟨"armored_push", "Armored Push", [.armored], [.humanoid], [.tank], 0.55, 0.2, 0.25, 3, 1.05⟩
  , ⟨"flying_strike", "Flying Strike", [.flying], [.swarm], [.armored], 0.55, 0.2, 0.25, 3, 0.95⟩
  , ⟨"undead_curse", "Undead Curse", [.undead], [.armored], [.humanoid], 0.6, 0.2, 0.2, 3, 1.0⟩
  , ⟨"beast_tank", "Beast Tank", [.beast, .tank], [.armored], [.swarm], 0.55, 0.25, 0.2, 3, 1.05⟩
  , ⟨"construct_wall", "Construct Wall", [.construct], [.tank], [.armored], 0.55, 0.25, 0.2, 3, 1.1⟩
  , ⟨"elemental_surge", "Elemental Surge", [.elemental, .aquatic], [.undead], [.humanoid], 0.55, 0.2, 0.25, 3, 0.98⟩
  , ⟨"mixed_check", "Mixed Check", [.swarm, .armored, .flying], [.undead, .tank], [.humanoid], 0.5, 0.25, 0.25, 4, 1.0⟩ ]

/-- `BOSS_SUPPORT_THEME` of waves.config.ts. -/
def BOSS_SUPPORT_THEME : WaveTheme :=
  ⟨"boss_support", "Boss Support", [.tank, .armored], [.swarm], [.undead, .humanoid], 0.5, 0.3, 0.2, 3, 1.0⟩

-- ===== WaveSystemV2: theme selection =====

/-- `WaveSystemV2.getNewEnemyTypesForWave`: the set (insertion-ordered,
deduplicated) of non-boss category tags of archetypes whose `unlockWave`
equals the current wave. -/
def getNewEnemyTypesForWave (wave : ℕ) : List EnemyType :=
  ENEMY_CONFIGS.foldl (fun acc p =>
    if p.2.unlockWave == wave then
      p.2.enemyTypes.foldl (fun acc2 t =>
        if t != EnemyType.boss && !(acc2.contains t) then acc2 ++ [t] else acc2) acc
    else acc) []

/-- `WaveSystemV2.getEnemyPoolByTypes`: the available ids whose archetype
carries at least one of the given category tags. -/
def getEnemyPoolByTypes (availableTypes : List String) (types : List EnemyType) : List String :=
  if types.isEmpty then []
  else availableTypes.filter (fun enemyId =>
    match lookupEnemyConfig enemyId with
    | some config => config.enemyTypes.any (fun t => types.contains t)
    | none => false)

/-- The fixed strategic tag set of `WaveSystemV2.getUnlockTheme`. -/
def strategicTypes : List EnemyType :=
  [.flying, .armored, .undead, .construct, .tank, .elemental, .aquatic, .beast]

/-- `WaveSystemV2.getUnlockTheme`: a synthesized "new threat" theme when this
wave introduces strategic tags that are represented in the available pool. -/
def getUnlockTheme (wave : ℕ) (availableTypes : List String) : Option WaveTheme :=
  let newlyUnlockedTypes := getNewEnemyTypesForWave wave
  if newlyUnlockedTypes.isEmpty then none
  else
    let focusTypes := newlyUnlockedTypes.filter (fun t => strategicTypes.contains t)
    if focusTypes.isEmpty then none
    else if (getEnemyPoolByTypes availableTypes focusTypes).isEmpty then none
    else some ⟨"new_threat", "New Threat", focusTypes,
      [.swarm, .humanoid, .armored], [.tank], 0.65, 0.25, 0.1, 3, 1.0⟩

/-- `WaveSystemV2.getWaveTheme`: boss theme, then hand-authored early theme,
then unlock spotlight, then the cyclical library. -/
def getWaveTheme (wave : ℕ) (availableTypes : List String) (isBossWave : Bool) : WaveTheme :=
  if isBossWave then BOSS_SUPPORT_THEME
  else match EARLY_WAVE_THEMES wave with
  | some earlyTheme => earlyTheme
  | none =>
    match getUnlockTheme wave availableTypes with
    | some unlockTheme => unlockTheme
    | none =>
      -- `Math.max(0, wave - 5)` is ℕ subtraction; the index is always in
      -- range, so the `getD` default is never used.
      WAVE_THEME_CYCLE.getD ((wave - 5) % WAVE_THEME_CYCLE.length) THEME_SWARM_PRESSURE

-- ===== WaveSystemV2: difficulty scaling =====

/-- The difficulty multiplier bundle held by `WaveSystemV2`
(`rewardMultiplier`, `healthMultiplier`, `enemyCountMultiplier`,
`speedMultiplier`). -/
structure DifficultyMults where
  reward : ℚ
  health : ℚ
  count : ℚ
  speed : ℚ
deriving DecidableEq

/-- The record returned by `WaveSystemV2.getWaveScaling`. -/
structure ScalingVals where
  enemyCount : ℤ
  healthMultiplier : ℚ
  speedMultiplier : ℚ
  rewardMultiplier : ℚ
  spawnInterval : ℤ
deriving DecidableEq

/-- `WaveSystemV2.getWaveScaling`.  `jsLog` stands for `Math.log` and `jsPow`
for `Math.pow`; every theorem below is proved for all oracle values. -/
def getWaveScaling (jsLog : ℚ → ℚ) (jsPow : ℚ → ℚ → ℚ) (d : DifficultyMults)
    (wave : ℕ) (theme : Option WaveTheme) : ScalingVals :=
  let baseCount : ℚ := 5
  let enemyCount := ⌊(baseCount + (wave : ℚ) * 1.5 + jsLog ((wave : ℚ) + 1) * 3) * d.count⌋
  let healthMultiplier := (1 + ((wave : ℚ) - 1) * 0.15 + jsPow ((wave : ℚ) / 10) 1.5) * d.health
  let speedMultiplier := (1 + min ((wave : ℚ) * 0.04) 0.5) * d.speed
  let rewardGrowth := min 1.25 (0.95 + jsLog ((wave : ℚ) + 1) * 0.08)
  let rewardMultiplier := rewardGrowth * d.reward
  let spawnIntervalBase : ℤ := max 300 (800 - (wave : ℤ) * 30)
  let spawnInterval :=
    match theme with
    | some t => max 280 (jsRound ((spawnIntervalBase : ℚ) * t.spawnIntervalMultiplier))
    | none => spawnIntervalBase
  ⟨enemyCount, healthMultiplier, speedMultiplier, rewardMultiplier, spawnInterval⟩

/-- The spawn-interval formula exactly as the spec sentence words it:
`max(300, round(max(300, 800 - wave*30) * theme.spawnIntervalMultiplier))`,
"clamped to a hard floor of 280ms after theme adjustment".  Stated from the
spec to compare against `getWaveScaling`. -/
def specSpawnInterval (wave : ℕ) (theme : WaveTheme) : ℤ :=
  max 280 (max 300 (jsRound (((max 300 (800 - (wave : ℤ) * 30) : ℤ) : ℚ) * theme.spawnIntervalMultiplier)))

-- ===== WaveSystemV2: themed composition =====

/-- `WaveSystemV2.getSegmentCount`:
`max(1, min(preferred, min(4, floor(total/8) + 1)))`. -/
def getSegmentCount (total : ℕ) (preferred : ℕ) : ℕ :=
  let dynamic := total / 8 + 1
  max 1 (min preferred (min 4 dynamic))

/-- The triple returned by `WaveSystemV2.allocateThemeCounts`. -/
structure ThemeCounts where
  focusCount : ℤ
  supportCount : ℤ
  wildcardCount : ℤ
deriving DecidableEq

/-- `WaveSystemV2.allocateThemeCounts`: normalize the three theme ratios,
allocate floor counts, force focus to at least 1 when the total is positive,
and repair a negative wildcard count by borrowing from support, then focus.
(The source also computes a normalized `wildcardRatio`, which it never
reads; it is dropped here.) -/
def allocateThemeCounts (total : ℕ) (theme : WaveTheme) : ThemeCounts :=
  let ratioTotal := theme.ratioFocus + theme.ratioSupport + theme.ratioWildcard
  let focusRatioN := if 0 < ratioTotal then theme.ratioFocus / ratioTotal else 1
  let supportRatioN := if 0 < ratioTotal then theme.ratioSupport / ratioTotal else 0
  let focusCount0 := ⌊(total : ℚ) * focusRatioN⌋
  let supportCount := ⌊(total : ℚ) * supportRatioN⌋
  let wildcardCount0 := (total : ℤ) - focusCount0 - supportCount
  let focusCount := if 0 < total ∧ focusCount0 = 0 then 1 else focusCount0
  let wildcardCount :=
    if 0 < total ∧ focusCount0 = 0 then (total : ℤ) - 1 - supportCount else wildcardCount0
  if wildcardCount < 0 then
    if 0 < supportCount then ⟨focusCount, (total : ℤ) - focusCount, 0⟩
    else ⟨(total : ℤ), supportCount, 0⟩
  else ⟨focusCount, supportCount, wildcardCount⟩

/-- `batch.push(batch.shift())`: rotate a list by one position. -/
def rotateOne (l : List String) : List String :=
  match l with
  | [] => []
  | x :: xs => xs ++ [x]

/-- The `while` loop of `WaveSystemV2.buildSequenceFromPool`, with explicit
fuel (each iteration of the source loop appends a full shuffled pass, so
`count` iterations always suffice; see `buildSeqGo_length`).  `sh` is the
shuffle oracle and `i` its call counter. -/
def buildSeqGo (sh : ℕ → List String → List String) (pool : List String) (count : ℕ) :
    ℕ → ℕ → List String → List String × ℕ
  | 0, i, seq => (seq, i)
  | fuel + 1, i, seq =>
    if seq.length < count then
      let batch0 := sh i pool
      let batch :=
        if 0 < seq.length && 1 < batch0.length && (seq.getLast? == batch0.head?)
        then rotateOne batch0 else batch0
      buildSeqGo sh pool count fuel (i + 1) (seq ++ batch)
    else (seq, i)

/-- `WaveSystemV2.buildSequenceFromPool`: concatenate shuffled passes over the
pool (rotating a pass whose head would repeat the previous element) and
truncate to `count`.  A non-positive `count` or an empty pool yields `[]`. -/
def buildSequenceFromPool (sh : ℕ → List String → List String) (i : ℕ)
    (pool : List String) (count : ℤ) : List String × ℕ :=
  if pool.isEmpty || count ≤ 0 then ([], i)
  else
    let n := count.toNat
    let r := buildSeqGo sh pool n n i []
    (r.1.take n, r.2)

/-- `Math.ceil(focusCount / 2)` on an integer. -/
def ceilHalf (a : ℤ) : ℤ := ⌈(a : ℚ) / 2⌉

/-- Build the segment list of `generateThemedComposition` in order, threading
the shuffle counter (the source's sequential `for` loop over `segments`). -/
def buildSegments (sh : ℕ → List String → List String) :
    ℕ → List (List String × ℤ) → List String × ℕ
  | i, [] => ([], i)
  | i, seg :: rest =>
    let r1 := buildSequenceFromPool sh i seg.1 seg.2
    let r2 := buildSegments sh r1.2 rest
    (r1.1 ++ r2.1, r2.2)

/-- The `segments` layout local to `generateThemedComposition`: 1 segment =
all focus; 2 segments = focus then the rest support; 3+ segments = the focus
"sandwich" with support (+ wildcard when fewer than 4 segments), a separate
wildcard segment only with 4 segments, and the second focus half. -/
def themeSegments (count : ℕ) (theme : WaveTheme)
    (resolvedFocusPool resolvedSupportPool resolvedWildcardPool : List String) :
    List (List String × ℤ) :=
  let counts := allocateThemeCounts count theme
  let segmentCount := getSegmentCount count theme.segmentCount
  if segmentCount ≤ 1 then [(resolvedFocusPool, (count : ℤ))]
  else if segmentCount = 2 then
    [(resolvedFocusPool, counts.focusCount),
     (resolvedSupportPool, (count : ℤ) - counts.focusCount)]
  else
    let focusFirst := ceilHalf counts.focusCount
    let focusSecond := counts.focusCount - focusFirst
    let supportSize := counts.supportCount +
      (if segmentCount < 4 then counts.wildcardCount else 0)
    [(resolvedFocusPool, focusFirst)]
      ++ (if 0 < supportSize then [(resolvedSupportPool, supportSize)] else [])
      ++ (if 4 ≤ segmentCount ∧ 0 < counts.wildcardCount
          then [(resolvedWildcardPool, counts.wildcardCount)] else [])
      ++ (if 0 < focusSecond then [(resolvedFocusPool, focusSecond)] else [])

/-- `WaveSystemV2.generateThemedComposition`: resolve the focus/support/
wildcard pools with fallbacks, allocate counts, lay segments out in the fixed
pattern, build each segment from its pool, pad from the focus pool, and
truncate to `count`. -/
def generateThemedComposition (sh : ℕ → List String → List String) (i : ℕ)
    (count : ℕ) (availableTypes : List String) (theme : WaveTheme) : List String × ℕ :=
  let basePool := if availableTypes.isEmpty then ["goblin"] else availableTypes
  let focusPool := getEnemyPoolByTypes basePool theme.focusTypes
  let supportPool := getEnemyPoolByTypes basePool theme.supportTypes
  let wildcardPool := getEnemyPoolByTypes basePool theme.wildcardTypes
  let resolvedFocusPool := if focusPool.isEmpty then basePool else focusPool
  let resolvedSupportPool := if supportPool.isEmpty then resolvedFocusPool else supportPool
  let resolvedWildcardPool := if wildcardPool.isEmpty then resolvedSupportPool else wildcardPool
  let segments := themeSegments count theme resolvedFocusPool resolvedSupportPool resolvedWildcardPool
  let built := buildSegments sh i segments
  let padded :=
    if built.1.length < count then
      let pad := buildSequenceFromPool sh built.2 resolvedFocusPool ((count : ℤ) - built.1.length)
      (built.1 ++ pad.1, pad.2)
    else built
  (padded.1.take count, padded.2)

/-- `array.splice(insertAt, 0, x)`: insert `x` at a position already clamped
to the array length. -/
def spliceInsert (l : List String) (insertAt : ℕ) (x : String) : List String :=
  l.take insertAt ++ x :: l.drop insertAt

/-- `WaveSystemV2.generateWaveComposition`: on a boss wave with an unlocked
boss, pick a boss archetype (`pick` models `Phaser.Math.RND.pick`), build a
boss-support composition for the remainder and splice the bosses in evenly;
otherwise build a themed composition. -/
def generateWaveComposition (sh : ℕ → List String → List String) (i : ℕ) (pick : ℕ)
    (wave : ℕ) (count : ℕ) (availableTypes : List String) (theme : WaveTheme)
    (isBossWave : Bool) : List String × ℕ :=
  let availableBosses := getAvailableBossTypes wave
  if isBossWave && !availableBosses.isEmpty then
    let maxBosses : ℕ := max 1 (wave / 25)
    let bossCount := min count maxBosses
    let bossType := availableBosses.getD (pick % availableBosses.length) "goblin"
    -- `Math.max(0, count - bossCount)` is ℕ subtraction.
    let remaining := count - bossCount
    let support := generateThemedComposition sh i remaining availableTypes BOSS_SUPPORT_THEME
    if support.1.isEmpty then (List.replicate bossCount bossType, support.2)
    else
      let spacing := max 1 (support.1.length / (bossCount + 1))
      let spaced := (List.range bossCount).foldl (fun acc k =>
        spliceInsert acc (min acc.length (spacing * (k + 1) + k)) bossType) support.1
      (spaced, support.2)
  else generateThemedComposition sh i count availableTypes theme

/-- The boss-wave test of `startNextWave`:
`currentWave % 10 === 0 && currentWave > 0`. -/
def isBossWaveCheck (wave : ℕ) : Bool := wave % 10 == 0 && decide (0 < wave)

-- ===== WaveSystemV2: runtime state machine =====

/-- What a scheduled callback does when it fires: the per-index spawn closure
of `startNextWave` (which captures the wave's scaling), or the
"spawning finished" marker. -/
inductive TimerKind
  | spawn (archetype : String) (scaling : ScalingVals)
  | completionMarker
deriving DecidableEq

/-- Modelled from the spec: a Phaser `TimerEvent` (the Phaser clock is not
part of src/).  Per §5 of the spec, a timer accumulates elapsed time while
unpaused, fires once when its delay is reached (`hasDispatched`), a paused
timer retains its remaining delay, and a destroyed timer never fires. -/
structure TimerEvent where
  delay : ℚ
  elapsed : ℚ
  paused : Bool
  hasDispatched : Bool
  destroyed : Bool
  kind : TimerKind
deriving DecidableEq

/-- The outbound notifications the wave system emits that this development
tracks (`waveStarted`, `enemySpawned`). -/
inductive GameEvent
  | waveStarted (wave : ℕ)
  | enemySpawned (enemyId : String)
deriving DecidableEq

/-- The mutable fields of `WaveSystemV2` other than the scene clock:
`currentWave`, `isSpawning`, `waveInProgress`, `enemiesSpawnedThisWave`, the
active-unit collection (`enemies`, kept as the spawned units' scaled
configs), the emitted notifications, `spawnTimers` (as indices into the scene
clock's timer list), and the shuffle-oracle call counter. -/
structure RuntimeData where
  currentWave : ℕ
  isSpawning : Bool
  waveInProgress : Bool
  enemiesSpawnedThisWave : ℕ
  enemies : List EnemyConfig
  events : List GameEvent
  spawnTimerIds : List ℕ
  shuffleCounter : ℕ
deriving DecidableEq

/-- The full runtime state: the wave system's fields plus the scene clock's
timer list (`scene.time`). -/
structure WaveState where
  data : RuntimeData
  timers : List TimerEvent
deriving DecidableEq

/-- The scaled copy built in `WaveSystemV2.spawnEnemy`:
`{ ...baseConfig, health: floor(h*hm), speed: floor(s*sm), reward: floor(r*rm) }`.
The spread copies every other field unchanged. -/
def scaleEnemyConfig (baseConfig : EnemyConfig) (scaling : ScalingVals) : EnemyConfig :=
  { baseConfig with
    health := ((⌊baseConfig.health * scaling.healthMultiplier⌋ : ℤ) : ℚ)
    speed := ((⌊baseConfig.speed * scaling.speedMultiplier⌋ : ℤ) : ℚ)
    reward := ((⌊baseConfig.reward * scaling.rewardMultiplier⌋ : ℤ) : ℚ) }

/-- The hardcoded fallback unit of `WaveSystemV2.spawnFallbackEnemy`. -/
def fallbackEnemyConfig (scaling : ScalingVals) : EnemyConfig :=
  { id := "fallback"
    name := "Torch Goblin"
    spriteKey := "torch_goblin"
    health := ((⌊(30 : ℚ) * scaling.healthMultiplier⌋ : ℤ) : ℚ)
    speed := ((⌊(80 : ℚ) * scaling.speedMultiplier⌋ : ℤ) : ℚ)
    damage := 1
    reward := ((⌊(10 : ℚ) * scaling.rewardMultiplier⌋ : ℤ) : ℚ)
    scale := 0.5
    enemyTypes := [.swarm, .humanoid]
    unlockWave := 1
    tags := ["light", "swarm"] }

/-- `WaveSystemV2.spawnEnemy` (with `spawnFallbackEnemy` for a missing
archetype): append the scaled unit to the active collection and emit
`enemySpawned`. -/
def spawnEnemyRt (enemyId : String) (scaling : ScalingVals) (d : RuntimeData) : RuntimeData :=
  match lookupEnemyConfig enemyId with
  | some baseConfig =>
    let cfg := scaleEnemyConfig baseConfig scaling
    { d with enemies := d.enemies ++ [cfg], events := d.events ++ [.enemySpawned cfg.id] }
  | none =>
    let cfg := fallbackEnemyConfig scaling
    { d with enemies := d.enemies ++ [cfg], events := d.events ++ [.enemySpawned cfg.id] }

/-- Run one scheduled callback: the spawn closure of `startNextWave` (spawn,
then increment `enemiesSpawnedThisWave`) or the completion marker
(`isSpawning = false`). -/
def fireCallback (k : TimerKind) (d : RuntimeData) : RuntimeData :=
  match k with
  | .spawn enemyId scaling =>
    let d2 := spawnEnemyRt enemyId scaling d
    { d2 with enemiesSpawnedThisWave := d2.enemiesSpawnedThisWave + 1 }
  | .completionMarker => { d with isSpawning := false }

/-- Modelled from the spec: one clock step for a single timer.  An unpaused,
undispatched, undestroyed timer accumulates `dt`; it dispatches (running its
callback) once its delay is reached. -/
def stepTimer (dt : ℚ) (t : TimerEvent) (d : RuntimeData) : TimerEvent × RuntimeData :=
  if t.paused || t.hasDispatched || t.destroyed then (t, d)
  else
    let e := t.elapsed + dt
    if t.delay ≤ e then ({ t with elapsed := e, hasDispatched := true }, fireCallback t.kind d)
    else ({ t with elapsed := e }, d)

/-- Modelled from the spec: advance every timer of the clock by `dt` in
order, threading the runtime state through the fired callbacks. -/
def tickGo (dt : ℚ) : List TimerEvent → RuntimeData → List TimerEvent × RuntimeData
  | [], d => ([], d)
  | t :: ts, d =>
    let r1 := stepTimer dt t d
    let r2 := tickGo dt ts r1.2
    (r1.1 :: r2.1, r2.2)

/-- Modelled from the spec: advance the whole runtime by `dt` milliseconds of
clock time. -/
def clockTick (dt : ℚ) (s : WaveState) : WaveState :=
  let r := tickGo dt s.timers s.data
  ⟨r.2, r.1⟩

/-- A sequence of clock advances. -/
def clockTicks (dts : List ℚ) (s : WaveState) : WaveState :=
  dts.foldl (fun acc dt => clockTick dt acc) s

/-- `WaveSystemV2.startNextWave`: rejected while a wave is in progress;
otherwise increment the wave counter, emit `waveStarted`, compose the wave,
schedule one spawn timer per sequence entry at `index * spawnInterval /
gameSpeed` (tracking each in `spawnTimers`), and schedule the
"spawning finished" marker at `((count-1)*spawnInterval + 500) / gameSpeed`
— which the source does NOT push onto `spawnTimers`. -/
def startNextWave (sh : ℕ → List String → List String) (pick : ℕ)
    (jsLog : ℚ → ℚ) (jsPow : ℚ → ℚ → ℚ) (d : DifficultyMults)
    (gameSpeed : ℚ) (s : WaveState) : Bool × WaveState :=
  if s.data.waveInProgress then (false, s)
  else
    let wave := s.data.currentWave + 1
    let availableTypes := getAvailableEnemyTypes wave
    let isBossWave := isBossWaveCheck wave
    let theme := getWaveTheme wave availableTypes isBossWave
    let scaling := getWaveScaling jsLog jsPow d wave (some theme)
    let comp := generateWaveComposition sh s.data.shuffleCounter pick wave
      scaling.enemyCount.toNat availableTypes theme isBossWave
    let spawnTimers := comp.1.enum.map (fun p =>
      TimerEvent.mk (((p.1 : ℚ) * (scaling.spawnInterval : ℚ)) / gameSpeed) 0
        false false false (.spawn p.2 scaling))
    let completionTimer :=
      TimerEvent.mk ((((comp.1.length : ℚ) - 1) * (scaling.spawnInterval : ℚ) + 500) / gameSpeed)
        0 false false false .completionMarker
    let newIds := List.range' s.timers.length comp.1.length
    (true,
      ⟨{ currentWave := wave
         isSpawning := true
         waveInProgress := true
         enemiesSpawnedThisWave := 0
         enemies := s.data.enemies
         events := s.data.events ++ [.waveStarted wave]
         spawnTimerIds := s.data.spawnTimerIds ++ newIds
         shuffleCounter := comp.2 },
       s.timers ++ spawnTimers ++ [completionTimer]⟩)

/-- Map a timer list by index (the wave system holds references to its spawn
timers; here they are addressed by index into the clock's list). -/
def mapTimersFrom (f : ℕ → TimerEvent → TimerEvent) : ℕ → List TimerEvent → List TimerEvent
  | _, [] => []
  | i, t :: ts => f i t :: mapTimersFrom f (i + 1) ts

/-- `WaveSystemV2.pauseSpawning`: pause every tracked, not-yet-dispatched
spawn timer. -/
def pauseSpawning (s : WaveState) : WaveState :=
  ⟨s.data, mapTimersFrom (fun i t =>
    if s.data.spawnTimerIds.contains i && !t.hasDispatched
    then { t with paused := true } else t) 0 s.timers⟩

/-- `WaveSystemV2.resumeSpawning`: unpause every tracked, not-yet-dispatched
spawn timer. -/
def resumeSpawning (s : WaveState) : WaveState :=
  ⟨s.data, mapTimersFrom (fun i t =>
    if s.data.spawnTimerIds.contains i && !t.hasDispatched
    then { t with paused := false } else t) 0 s.timers⟩

/-- `WaveSystemV2.clear`: destroy every tracked spawn timer, drop the
tracking list, destroy every active unit, and reset both flags.  (The
completion marker was never tracked, so it is not destroyed.) -/
def clearRuntime (s : WaveState) : WaveState :=
  ⟨{ s.data with spawnTimerIds := [], enemies := [], waveInProgress := false, isSpawning := false },
   mapTimersFrom (fun i t =>
     if s.data.spawnTimerIds.contains i then { t with destroyed := true } else t) 0 s.timers⟩

/-- Whether a timer kind is a spawn callback. -/
def isSpawnKind (k : TimerKind) : Bool :=
  match k with
  | .spawn _ _ => true
  | .completionMarker => false

/-- Every spawn-kind timer of the clock is tracked in `spawnTimerIds`
(`startNextWave` establishes this: the completion marker is the only timer it
leaves untracked). -/
def spawnTimersTracked (s : WaveState) : Bool :=
  s.timers.enum.all (fun p => !(isSpawnKind p.2.kind) || s.data.spawnTimerIds.contains p.1)

/-- The identity shuffle oracle, used to instantiate witnesses. -/
def shId : ℕ → List String → List String := fun _ l => l

/-- Neutral difficulty multipliers. -/
def neutralDifficulty : DifficultyMults := ⟨1, 1, 1, 1⟩

/-- The freshly constructed wave system with an empty scene clock. -/
def initialWaveState : WaveState := ⟨⟨0, false, false, 0, [], [], [], 0⟩, []⟩

/-- A state with a wave in progress (used to instantiate the rejection
theorem). -/
def busyWaveState : WaveState := ⟨⟨3, true, true, 2, [], [], [], 5⟩, []⟩

/-- A mid-wave state with one tracked spawn timer and the untracked
completion marker (used to instantiate the pause/clear theorem). -/
def sampleTimedState : WaveState :=
  ⟨⟨1, true, true, 0, [], [], [0], 1⟩,
   [⟨500, 0, false, false, false, TimerKind.spawn "goblin" ⟨6, 1, 1, 1, 500⟩⟩,
    ⟨1000, 0, false, false, false, TimerKind.completionMarker⟩]⟩

/-- The state right after `startNextWave` on a fresh runtime, with a log
oracle making the enemy count non-positive, so the wave consists of the
completion marker alone. -/
def cexStartedState : WaveState :=
  (startNextWave shId 0 (fun _ => -3) (fun _ _ => 0) neutralDifficulty 1 initialWaveState).2

-- ===== Theorems =====

/-- Rewriting the source's `if b < m then m else b` update as a `max`. -/
theorem foldl_if_max (f : EnemyType → ℚ) (l : List EnemyType) (init : ℚ) :
    l.foldl (fun b t => let m := f t; if b < m then m else b) init =
      l.foldl (fun b t => max b (f t)) init := by
  induction l generalizing init with
  | nil => rfl
  | cons x xs ih =>
    simp only [List.foldl_cons]
    rw [ih]
    congr 1
    rcases lt_or_le init (f x) with h | h
    · simp [h, max_eq_right h.le]
    · simp [not_lt.mpr h, max_eq_left h]

/-- Rewriting the source's `if m < w then m else w` update as a `min`. -/
theorem foldl_if_min (f : EnemyType → ℚ) (l : List EnemyType) (init : ℚ) :
    l.foldl (fun w t => let m := f t; if m < w then m else w) init =
      l.foldl (fun w t => min w (f t)) init := by
  induction l generalizing init with
  | nil => rfl
  | cons x xs ih =>
    simp only [List.foldl_cons]
    rw [ih]
    congr 1
    rcases lt_or_le (f x) init with h | h
    · simp [h, min_eq_right h.le]
    · simp [not_lt.mpr h, min_eq_left h]

/-- A constant bound factors out of a running maximum. -/
theorem foldl_max_extract (f : EnemyType → ℚ) (l : List EnemyType) (c a : ℚ) :
    l.foldl (fun b t => max b (f t)) (max c a) =
      max c (l.foldl (fun b t => max b (f t)) a) := by
  induction l generalizing a with
  | nil => rfl
  | cons x xs ih => simp only [List.foldl_cons, max_assoc, ih]

/-- A constant bound factors out of a running minimum. -/
theorem foldl_min_extract (f : EnemyType → ℚ) (l : List EnemyType) (c a : ℚ) :
    l.foldl (fun w t => min w (f t)) (min c a) =
      min c (l.foldl (fun w t => min w (f t)) a) := by
  induction l generalizing a with
  | nil => rfl
  | cons x xs ih => simp only [List.foldl_cons, min_assoc, ih]

/-- C1 (amended): for a single-tag enemy and a tower with a damage profile,
`calculateEffectiveDamage` returns `floor(base * max(1, blended))` — the
blended multiplier is clamped below at the neutral `1.0` (both accumulators
start at `1.0`), so it does NOT equal `floor(base * blended)` when the tag
resists the tower, and a blended multiplier of `0` would return the base
damage, not `0`. -/
theorem effectiveDamage_single_tag (base : ℚ) (towerId : String)
    (p : TowerDamageProfile) (hp : TOWER_DAMAGE_PROFILES towerId = some p)
    (t : EnemyType) :
    calculateEffectiveDamage base towerId [t] =
      ((⌊base * max 1 (typeMultiplier p t)⌋ : ℤ) : ℚ) := by
  simp only [calculateEffectiveDamage, hp, List.foldl_cons, List.foldl_nil,
    List.length_cons, List.length_nil]
  norm_num
  rcases lt_or_le (1 : ℚ) (typeMultiplier p t) with h | h
  · simp [h, max_eq_right h.le]
  · simp [not_lt.mpr h, max_eq_left h]

/-- Witness for C1: Frostcoil (pure ice) against a pure-aquatic tag: blended
multiplier 1.7, so `floor(7 * max(1, 1.7)) = 11`. -/
theorem effectiveDamage_single_tag_witness :
    calculateEffectiveDamage 7 "frostcoil_tower" [EnemyType.aquatic] = 11 := by
  rw [effectiveDamage_single_tag 7 "frostcoil_tower" ⟨DamageType.ice, none, 1⟩ rfl
    EnemyType.aquatic]
  norm_num [typeMultiplier, ENEMY_DAMAGE_MULTIPLIERS]

/-- Counterexample for C1 as stated: Ember Watch (pure fire) against a
single-tag demon enemy has blended multiplier `0.5`, so the claimed
`floor(10 * 0.5) = 5` — but the code returns the unreduced base damage `10`,
because the running best multiplier starts at `1.0`. -/
theorem effectiveDamage_single_tag_cex :
    calculateEffectiveDamage 10 "ember_watch" [EnemyType.demon] = 10 ∧
    ((⌊(10 : ℚ) * typeMultiplier ⟨DamageType.fire, none, 1⟩ EnemyType.demon⌋ : ℤ) : ℚ) = 5 ∧
    calculateEffectiveDamage 10 "ember_watch" [EnemyType.demon] ≠
      ((⌊(10 : ℚ) * typeMultiplier ⟨DamageType.fire, none, 1⟩ EnemyType.demon⌋ : ℤ) : ℚ) := by
  refine ⟨?_, ?_, ?_⟩ <;>
    norm_num [calculateEffectiveDamage, TOWER_DAMAGE_PROFILES, typeMultiplier,
      ENEMY_DAMAGE_MULTIPLIERS]

/-- C2 (amended): for an enemy with two or more tags, the applied multiplier
is the arithmetic mean of `max(1, best)` and `min(1, worst)` where
`best`/`worst` are the maximum/minimum per-tag blended multipliers — each
side clamped toward neutral `1.0` by the accumulators' starting value, not
the raw mean of best and worst.  For blended multipliers 1.8 and 0.5 the two
clamps change nothing and the mean is exactly 1.15. -/
theorem effectiveDamage_multi_tag (base : ℚ) (towerId : String)
    (p : TowerDamageProfile) (hp : TOWER_DAMAGE_PROFILES towerId = some p)
    (t1 t2 : EnemyType) (rest : List EnemyType) :
    calculateEffectiveDamage base towerId (t1 :: t2 :: rest) =
      ((⌊base * ((max 1 (bestBlendOver p t1 (t2 :: rest)) +
        min 1 (worstBlendOver p t1 (t2 :: rest))) / 2)⌋ : ℤ) : ℚ) := by
  simp only [calculateEffectiveDamage, hp, bestBlendOver, worstBlendOver]
  rw [foldl_if_max, foldl_if_min]
  simp only [List.foldl_cons, List.length_cons]
  rw [if_pos (by omega : 1 < rest.length + 1 + 1)]
  rw [max_assoc, min_assoc, foldl_max_extract, foldl_min_extract]

/-- Witness for C2: Rockbound Bastion (pure physical) against a
construct+armored enemy has blended multipliers 1.8 and 0.5; the mean is
1.15 and `floor(100 * 1.15) = 115` — the instance named by the claim. -/
theorem effectiveDamage_multi_tag_witness :
    calculateEffectiveDamage 100 "rockbound_bastion" [EnemyType.construct, EnemyType.armored] = 115 := by
  rw [effectiveDamage_multi_tag 100 "rockbound_bastion" ⟨DamageType.physical, none, 1⟩ rfl
    EnemyType.construct EnemyType.armored []]
  norm_num [bestBlendOver, worstBlendOver, typeMultiplier, ENEMY_DAMAGE_MULTIPLIERS]

/-- Counterexample for C2 as stated: Ember Watch against a swarm+beast enemy
has blended multipliers 1.6 and 1.5; the claimed mean of best and worst is
1.55 giving `155`, but the code clamps the worst accumulator at `1.0` and
returns `floor(100 * (1.6 + 1.0)/2) = 130`. -/
theorem effectiveDamage_multi_tag_cex :
    calculateEffectiveDamage 100 "ember_watch" [EnemyType.swarm, EnemyType.beast] = 130 ∧
    ((⌊(100 : ℚ) * ((bestBlendOver ⟨DamageType.fire, none, 1⟩ EnemyType.swarm [EnemyType.beast] +
      worstBlendOver ⟨DamageType.fire, none, 1⟩ EnemyType.swarm [EnemyType.beast]) / 2)⌋ : ℤ) : ℚ) = 155 ∧
    calculateEffectiveDamage 100 "ember_watch" [EnemyType.swarm, EnemyType.beast] ≠
      ((⌊(100 : ℚ) * ((bestBlendOver ⟨DamageType.fire, none, 1⟩ EnemyType.swarm [EnemyType.beast] +
        worstBlendOver ⟨DamageType.fire, none, 1⟩ EnemyType.swarm [EnemyType.beast]) / 2)⌋ : ℤ) : ℚ) := by
  refine ⟨?_, ?_, ?_⟩ <;>
    norm_num [calculateEffectiveDamage, TOWER_DAMAGE_PROFILES, bestBlendOver, worstBlendOver,
      typeMultiplier, ENEMY_DAMAGE_MULTIPLIERS]

/-- C8 (amended): for every wave and theme, the spawn interval is
`max(280, round(max(300, 800 - wave*30) * theme.spawnIntervalMultiplier))` —
the hard floor after theme adjustment is 280ms, and the pre-theme 300ms floor
is NOT re-applied after the theme multiplier. -/
theorem spawnInterval_formula (jsLog : ℚ → ℚ) (jsPow : ℚ → ℚ → ℚ)
    (d : DifficultyMults) (wave : ℕ) (theme : WaveTheme) :
    (getWaveScaling jsLog jsPow d wave (some theme)).spawnInterval =
      max 280 (jsRound (((max 300 (800 - (wave : ℤ) * 30) : ℤ) : ℚ) * theme.spawnIntervalMultiplier)) :=
  rfl

/-- Counterexample for C8 as stated: at wave 17 with the Swarm Pressure theme
(multiplier 0.92) the base interval is `max(300, 290) = 300` and
`round(300*0.92) = 276`, so the code returns `max(280, 276) = 280`, while the
claim's formula `max(300, 276)` (even with an extra 280 floor) gives 300. -/
theorem spawnInterval_cex :
    (getWaveScaling (fun _ => 0) (fun _ _ => 0) neutralDifficulty 17
      (some THEME_SWARM_PRESSURE)).spawnInterval = 280 ∧
    specSpawnInterval 17 THEME_SWARM_PRESSURE = 300 ∧
    (getWaveScaling (fun _ => 0) (fun _ _ => 0) neutralDifficulty 17
      (some THEME_SWARM_PRESSURE)).spawnInterval ≠ specSpawnInterval 17 THEME_SWARM_PRESSURE := by
  refine ⟨?_, ?_, ?_⟩ <;>
    norm_num [getWaveScaling, specSpawnInterval, jsRound, THEME_SWARM_PRESSURE,
      neutralDifficulty]

/-- C10 (confirmed): a spawned unit's config is an integer-floored copy of
the archetype's stats (`health`, `speed`, `reward` floored after scaling),
with every other field copied unchanged (the spread copies the catalog entry,
leaving it unmodified), and the hardcoded fallback unit floors its 30/80/10
base stats the same way; the active collection receives exactly this copy. -/
theorem spawnEnemy_floors_stats (c : EnemyConfig) (sc : ScalingVals)
    (enemyId : String) (d : RuntimeData) :
    (scaleEnemyConfig c sc).health = ((⌊c.health * sc.healthMultiplier⌋ : ℤ) : ℚ) ∧
    (scaleEnemyConfig c sc).speed = ((⌊c.speed * sc.speedMultiplier⌋ : ℤ) : ℚ) ∧
    (scaleEnemyConfig c sc).reward = ((⌊c.reward * sc.rewardMultiplier⌋ : ℤ) : ℚ) ∧
    (scaleEnemyConfig c sc).id = c.id ∧
    (scaleEnemyConfig c sc).name = c.name ∧
    (scaleEnemyConfig c sc).spriteKey = c.spriteKey ∧
    (scaleEnemyConfig c sc).damage = c.damage ∧
    (scaleEnemyConfig c sc).scale = c.scale ∧
    (scaleEnemyConfig c sc).enemyTypes = c.enemyTypes ∧
    (scaleEnemyConfig c sc).unlockWave = c.unlockWave ∧
    (scaleEnemyConfig c sc).tags = c.tags ∧
    (fallbackEnemyConfig sc).health = ((⌊(30 : ℚ) * sc.healthMultiplier⌋ : ℤ) : ℚ) ∧
    (fallbackEnemyConfig sc).speed = ((⌊(80 : ℚ) * sc.speedMultiplier⌋ : ℤ) : ℚ) ∧
    (fallbackEnemyConfig sc).reward = ((⌊(10 : ℚ) * sc.rewardMultiplier⌋ : ℤ) : ℚ) ∧
    (spawnEnemyRt enemyId sc d).enemies = d.enemies ++
      [match lookupEnemyConfig enemyId with
       | some base => scaleEnemyConfig base sc
       | none => fallbackEnemyConfig sc] := by
  refine ⟨rfl, rfl, rfl, rfl, rfl, rfl, rfl, rfl, rfl, rfl, rfl, rfl, rfl, rfl, ?_⟩
  rcases h : lookupEnemyConfig enemyId with _ | base <;> simp [spawnEnemyRt, h]

/-- C4 (confirmed): `startNextWave` called while a wave is in progress
returns `false` and leaves the entire state — wave counter, timers, events —
unchanged. -/
theorem startNextWave_rejected (sh : ℕ → List String → List String) (pick : ℕ)
    (jsLog : ℚ → ℚ) (jsPow : ℚ → ℚ → ℚ) (d : DifficultyMults) (gameSpeed : ℚ)
    (s : WaveState) (h : s.data.waveInProgress = true) :
    startNextWave sh pick jsLog jsPow d gameSpeed s = (false, s) := by
  simp [startNextWave, h]

/-- Witness for C4: a concrete in-progress state is rejected untouched. -/
theorem startNextWave_rejected_witness :
    busyWaveState.data.waveInProgress = true ∧
    startNextWave shId 0 (fun _ => 0) (fun _ _ => 0) neutralDifficulty 1 busyWaveState =
      (false, busyWaveState) :=
  ⟨rfl, startNextWave_rejected shId 0 (fun _ => 0) (fun _ _ => 0) neutralDifficulty 1
    busyWaveState rfl⟩

/-- C5 (confirmed): for non-negative theme ratios, `allocateThemeCounts`
returns non-negative focus/support/wildcard counts that sum to the total,
with focus at least 1 whenever the total is positive (the enforced minimum
survives the borrow-from-support-then-focus repair of a negative wildcard). -/
theorem allocateThemeCounts_spec (total : ℕ) (theme : WaveTheme)
    (hf : 0 ≤ theme.ratioFocus) (hs : 0 ≤ theme.ratioSupport)
    (hw : 0 ≤ theme.ratioWildcard) :
    0 ≤ (allocateThemeCounts total theme).focusCount ∧
    0 ≤ (allocateThemeCounts total theme).supportCount ∧
    0 ≤ (allocateThemeCounts total theme).wildcardCount ∧
    (allocateThemeCounts total theme).focusCount +
      (allocateThemeCounts total theme).supportCount +
      (allocateThemeCounts total theme).wildcardCount = total ∧
    (0 < total → 1 ≤ (allocateThemeCounts total theme).focusCount) := by
  have htot : (0 : ℚ) ≤ (total : ℚ) := Nat.cast_nonneg total
  unfold allocateThemeCounts
  rcases lt_or_le 0 (theme.ratioFocus + theme.ratioSupport + theme.ratioWildcard) with hT | hT
  · simp only [if_pos hT]
    set T := theme.ratioFocus + theme.ratioSupport + theme.ratioWildcard with hTdef
    set fc0 := ⌊(total : ℚ) * (theme.ratioFocus / T)⌋ with hfc0
    set sc0 := ⌊(total : ℚ) * (theme.ratioSupport / T)⌋ with hsc0
    have hfc0_nonneg : 0 ≤ fc0 :=
      Int.floor_nonneg.mpr (mul_nonneg htot (div_nonneg hf hT.le))
    have hsc0_nonneg : 0 ≤ sc0 :=
      Int.floor_nonneg.mpr (mul_nonneg htot (div_nonneg hs hT.le))
    have hsum_le : fc0 + sc0 ≤ (total : ℤ) := by
      have h1 : (total : ℚ) * (theme.ratioFocus / T) +
          (total : ℚ) * (theme.ratioSupport / T) ≤ (total : ℚ) := by
        rw [← mul_add, div_add_div_same]
        have : (theme.ratioFocus + theme.ratioSupport) / T ≤ 1 := by
          rw [div_le_one hT]
          linarith
        nlinarith
      have h2 : ((fc0 + sc0 : ℤ) : ℚ) ≤ (total : ℚ) := by
        push_cast
        calc ((fc0 : ℚ) + (sc0 : ℚ)) ≤ _ + _ := add_le_add (Int.floor_le _) (Int.floor_le _)
        _ ≤ (total : ℚ) := h1
      exact_mod_cast h2
    by_cases hbump : 0 < total ∧ fc0 = 0
    · simp only [if_pos hbump]
      by_cases hneg : (total : ℤ) - 1 - sc0 < 0
      · simp only [if_pos hneg]
        by_cases hsp : 0 < sc0
        · simp only [if_pos hsp]
          refine ⟨by omega, by omega, le_refl 0, by omega, fun _ => by omega⟩
        · simp only [if_neg hsp]
          omega
      · simp only [if_neg hneg]
        refine ⟨by omega, by omega, by omega, by omega, fun _ => by omega⟩
    · simp only [if_neg hbump]
      have hnoneg : ¬ ((total : ℤ) - fc0 - sc0 < 0) := by omega
      simp only [if_neg hnoneg]
      refine ⟨hfc0_nonneg, hsc0_nonneg, by omega, by omega, fun hpos => by omega⟩
  · simp only [if_neg (not_lt.mpr hT)]
    have hfc : ⌊(total : ℚ) * 1⌋ = (total : ℤ) := by
      rw [mul_one]
      exact Int.floor_natCast total
    have hsc : ⌊(total : ℚ) * 0⌋ = 0 := by
      rw [mul_zero]
      exact Int.floor_zero
    simp only [hfc, hsc]
    by_cases hbump : 0 < total ∧ (total : ℤ) = 0
    · omega
    · simp only [if_neg hbump]
      have : ¬ ((total : ℤ) - (total : ℤ) - 0 < 0) := by omega
      simp only [this, if_neg, if_false]
      refine ⟨by omega, le_refl 0, by omega, by omega, fun hpos => by omega⟩

/-- Witness for C5: the Swarm Pressure theme (ratios 0.6/0.2/0.2) at total 7
satisfies the allocation properties. -/
theorem allocateThemeCounts_spec_witness :
    0 ≤ (allocateThemeCounts 7 THEME_SWARM_PRESSURE).focusCount ∧
    0 ≤ (allocateThemeCounts 7 THEME_SWARM_PRESSURE).supportCount ∧
    0 ≤ (allocateThemeCounts 7 THEME_SWARM_PRESSURE).wildcardCount ∧
    (allocateThemeCounts 7 THEME_SWARM_PRESSURE).focusCount +
      (allocateThemeCounts 7 THEME_SWARM_PRESSURE).supportCount +
      (allocateThemeCounts 7 THEME_SWARM_PRESSURE).wildcardCount = 7 ∧
    (0 < 7 → 1 ≤ (allocateThemeCounts 7 THEME_SWARM_PRESSURE).focusCount) :=
  allocateThemeCounts_spec 7 THEME_SWARM_PRESSURE (by norm_num [THEME_SWARM_PRESSURE])
    (by norm_num [THEME_SWARM_PRESSURE]) (by norm_num [THEME_SWARM_PRESSURE])

/-- A rotated shuffle batch is still a permutation of the batch. -/
theorem rotateOne_perm (l : List String) : (rotateOne l).Perm l := by
  cases l with
  | nil => exact List.Perm.refl []
  | cons x xs => simpa [rotateOne] using List.perm_append_comm

/-- Each loop pass of `buildSequenceFromPool` appends a full shuffled pool,
so `count` passes reach any target length up to `count * |pool|`. -/
theorem buildSeqGo_length (sh : ℕ → List String → List String)
    (hsh : ∀ j l, (sh j l).Perm l) (pool : List String) (hpool : pool ≠ [])
    (count : ℕ) :
    ∀ fuel i seq, count ≤ seq.length + fuel * pool.length →
      count ≤ (buildSeqGo sh pool count fuel i seq).1.length := by
  intro fuel
  induction fuel with
  | zero => intro i seq h; simpa [buildSeqGo] using h
  | succ fuel ih =>
    intro i seq h
    rw [buildSeqGo]
    by_cases hlt : seq.length < count
    · simp only [if_pos hlt]
      set batch0 := sh i pool with hb0
      have hlen0 : batch0.length = pool.length := (hsh i pool).length_eq
      by_cases hrot : 0 < seq.length && 1 < batch0.length && (seq.getLast? == batch0.head?)
      · simp only [if_pos hrot]
        apply ih
        have : (rotateOne batch0).length = pool.length := by
          rw [(rotateOne_perm batch0).length_eq, hlen0]
        rw [List.length_append, this]
        calc count ≤ seq.length + (fuel + 1) * pool.length := h
        _ = seq.length + pool.length + fuel * pool.length := by ring
      · simp only [if_neg hrot]
        apply ih
        rw [List.length_append, hlen0]
        calc count ≤ seq.length + (fuel + 1) * pool.length := h
        _ = seq.length + pool.length + fuel * pool.length := by ring
    · simp only [if_neg hlt]
      omega

/-- Every element the loop of `buildSequenceFromPool` emits comes from the
accumulated sequence or from the pool. -/
theorem buildSeqGo_subset (sh : ℕ → List String → List String)
    (hsh : ∀ j l, (sh j l).Perm l) (pool : List String) (count : ℕ) :
    ∀ fuel i seq x, x ∈ (buildSeqGo sh pool count fuel i seq).1 →
      x ∈ seq ∨ x ∈ pool := by
  intro fuel
  induction fuel with
  | zero => intro i seq x h; exact Or.inl (by simpa [buildSeqGo] using h)
  | succ fuel ih =>
    intro i seq x h
    rw [buildSeqGo] at h
    by_cases hlt : seq.length < count
    · simp only [if_pos hlt] at h
      set batch0 := sh i pool with hb0
      by_cases hrot : 0 < seq.length && 1 < batch0.length && (seq.getLast? == batch0.head?)
      · simp only [if_pos hrot] at h
        rcases ih _ _ _ h with hx | hx
        · rcases List.mem_append.mp hx with hx2 | hx2
          · exact Or.inl hx2
          · exact Or.inr ((hsh i pool).mem_iff.mp ((rotateOne_perm batch0).mem_iff.mp hx2))
        · exact Or.inr hx
      · simp only [if_neg hrot] at h
        rcases ih _ _ _ h with hx | hx
        · rcases List.mem_append.mp hx with hx2 | hx2
          · exact Or.inl hx2
          · exact Or.inr ((hsh i pool).mem_iff.mp hx2)
        · exact Or.inr hx
    · simp only [if_neg hlt] at h
      exact Or.inl h

/-- `buildSequenceFromPool` returns exactly `count` elements for a non-empty
pool (and `[]` for a non-positive count). -/
theorem buildSequenceFromPool_length (sh : ℕ → List String → List String)
    (hsh : ∀ j l, (sh j l).Perm l) (i : ℕ) (pool : List String) (hpool : pool ≠ [])
    (count : ℤ) :
    (buildSequenceFromPool sh i pool count).1.length = count.toNat := by
  unfold buildSequenceFromPool
  have hpe : pool.isEmpty = false := by simpa [List.isEmpty_iff] using hpool
  by_cases hc : count ≤ 0
  · simp [hpe, hc]
    omega
  · have hd : decide (count ≤ 0) = false := by simpa using hc
    simp only [hpe, Bool.false_or, hd, Bool.false_eq_true, if_false]
    rw [List.length_take]
    have : count.toNat ≤ (buildSeqGo sh pool count.toNat count.toNat i []).1.length := by
      apply buildSeqGo_length sh hsh pool hpool
      have hp1 : 1 ≤ pool.length := List.length_pos.mpr hpool
      have : count.toNat * 1 ≤ count.toNat * pool.length := Nat.mul_le_mul_left _ hp1
      omega
    omega

/-- Every element of a built sequence comes from its pool. -/
theorem buildSequenceFromPool_subset (sh : ℕ → List String → List String)
    (hsh : ∀ j l, (sh j l).Perm l) (i : ℕ) (pool : List String) (count : ℤ)
    (x : String) (hx : x ∈ (buildSequenceFromPool sh i pool count).1) :
    x ∈ pool := by
  unfold buildSequenceFromPool at hx
  by_cases hc : pool.isEmpty || count ≤ 0
  · simp [hc] at hx
  · simp only [if_neg hc] at hx
    have := buildSeqGo_subset sh hsh pool count.toNat count.toNat i [] x
      (List.take_subset _ _ hx)
    simpa using this

/-- A fallback of the form `if l.isEmpty then fb else l` is non-empty
whenever the fallback is. -/
theorem ifEmptyFallback_ne_nil (l fb : List String) (hfb : fb ≠ []) :
    (if l.isEmpty then fb else l) ≠ [] := by
  by_cases h : l.isEmpty
  · simpa [h]
  · simp only [if_neg h]
    intro hn
    simp [hn] at h

/-- A fallback of the form `if l.isEmpty then fb else l` stays inside any
superset of both branches. -/
theorem ifEmptyFallback_subset (l fb base : List String) (hl : ∀ x ∈ l, x ∈ base)
    (hfb : ∀ x ∈ fb, x ∈ base) : ∀ x ∈ (if l.isEmpty then fb else l), x ∈ base := by
  by_cases h : l.isEmpty <;> simp only [h, if_true, if_false] <;> assumption

/-- `getEnemyPoolByTypes` filters the available pool. -/
theorem getEnemyPoolByTypes_subset (avail : List String) (types : List EnemyType) :
    ∀ x ∈ getEnemyPoolByTypes avail types, x ∈ avail := by
  unfold getEnemyPoolByTypes
  split_ifs with h
  · simp
  · intro x hx
    exact List.mem_of_mem_filter hx

/-- Every segment draws from one of the three resolved pools. -/
theorem themeSegments_pools (count : ℕ) (theme : WaveTheme)
    (rf rs rw2 : List String) :
    ∀ seg ∈ themeSegments count theme rf rs rw2, seg.1 = rf ∨ seg.1 = rs ∨ seg.1 = rw2 := by
  intro seg hseg
  unfold themeSegments at hseg
  simp only [] at hseg
  split_ifs at hseg <;> simp_all <;> rcases hseg with h | h | h | h <;> simp_all

/-- The pad-then-truncate tail of `generateThemedComposition` always yields
exactly `count` elements when the pad pool is non-empty. -/
theorem padTake_length (sh : ℕ → List String → List String)
    (hsh : ∀ j l, (sh j l).Perm l) (count : ℕ) (built : List String × ℕ)
    (fp : List String) (hfp : fp ≠ []) :
    ((if built.1.length < count then
        ((built.1 ++ (buildSequenceFromPool sh built.2 fp ((count : ℤ) - built.1.length)).1,
          (buildSequenceFromPool sh built.2 fp ((count : ℤ) - built.1.length)).2) : List String × ℕ)
      else built).1.take count).length = count := by
  by_cases hlt : built.1.length < count
  · simp only [if_pos hlt, List.length_take, List.length_append]
    rw [buildSequenceFromPool_length sh hsh _ fp hfp]
    omega
  · simp only [if_neg hlt, List.length_take]
    omega

/-- Elements of the concatenated segments come from the segment pools. -/
theorem buildSegments_subset (sh : ℕ → List String → List String)
    (hsh : ∀ j l, (sh j l).Perm l) (base : List String) :
    ∀ segments i x, (∀ seg ∈ segments, ∀ y ∈ seg.1, y ∈ base) →
      x ∈ (buildSegments sh i segments).1 → x ∈ base := by
  intro segments
  induction segments with
  | nil => intro i x _ hx; simp [buildSegments] at hx
  | cons seg rest ih =>
    intro i x hpools hx
    rw [buildSegments] at hx
    rcases List.mem_append.mp hx with hx2 | hx2
    · exact hpools seg (List.mem_cons_self _ _) x
        (buildSequenceFromPool_subset sh hsh _ _ _ x hx2)
    · exact ih _ x (fun s hs => hpools s (List.mem_cons_of_mem _ hs)) hx2

/-- A themed composition has exactly the requested length. -/
theorem generateThemedComposition_length (sh : ℕ → List String → List String)
    (hsh : ∀ j l, (sh j l).Perm l) (i count : ℕ) (availableTypes : List String)
    (theme : WaveTheme) :
    (generateThemedComposition sh i count availableTypes theme).1.length = count := by
  unfold generateThemedComposition
  simp only []
  apply padTake_length sh hsh count
  apply ifEmptyFallback_ne_nil
  apply ifEmptyFallback_ne_nil
  simp

/-- Every entry of a themed composition comes from the base pool (the
available archetypes, or the goblin fallback when none are available). -/
theorem generateThemedComposition_subset (sh : ℕ → List String → List String)
    (hsh : ∀ j l, (sh j l).Perm l) (i count : ℕ) (availableTypes : List String)
    (theme : WaveTheme) (x : String)
    (hx : x ∈ (generateThemedComposition sh i count availableTypes theme).1) :
    x ∈ (if availableTypes.isEmpty then ["goblin"] else availableTypes) := by
  unfold generateThemedComposition at hx
  simp only [] at hx
  set basePool := if availableTypes.isEmpty then ["goblin"] else availableTypes with hbase
  set focusPool := getEnemyPoolByTypes basePool theme.focusTypes with hfpd
  set supportPool := getEnemyPoolByTypes basePool theme.supportTypes with hspd
  set wildcardPool := getEnemyPoolByTypes basePool theme.wildcardTypes with hwpd
  set rf := if focusPool.isEmpty then basePool else focusPool with hrfd
  set rs := if supportPool.isEmpty then rf else supportPool with hrsd
  set rw2 := if wildcardPool.isEmpty then rs else wildcardPool with hrwd
  have hfsub : ∀ y ∈ focusPool, y ∈ basePool := getEnemyPoolByTypes_subset _ _
  have hssub : ∀ y ∈ supportPool, y ∈ basePool := getEnemyPoolByTypes_subset _ _
  have hwsub : ∀ y ∈ wildcardPool, y ∈ basePool := getEnemyPoolByTypes_subset _ _
  have hrf : ∀ y ∈ rf, y ∈ basePool := ifEmptyFallback_subset _ _ _ hfsub (fun y hy => hy)
  have hrs : ∀ y ∈ rs, y ∈ basePool := ifEmptyFallback_subset _ _ _ hssub hrf
  have hrw : ∀ y ∈ rw2, y ∈ basePool := ifEmptyFallback_subset _ _ _ hwsub hrs
  have hpools : ∀ seg ∈ themeSegments count theme rf rs rw2, ∀ y ∈ seg.1, y ∈ basePool := by
    intro seg hseg y hy
    rcases themeSegments_pools count theme rf rs rw2 seg hseg with h | h | h <;> rw [h] at hy
    · exact hrf y hy
    · exact hrs y hy
    · exact hrw y hy
  have hx2 := List.take_subset _ _ hx
  by_cases hlt : (buildSegments sh i (themeSegments count theme rf rs rw2)).1.length < count
  · simp only [if_pos hlt] at hx2
    rcases List.mem_append.mp hx2 with hx3 | hx3
    · exact buildSegments_subset sh hsh basePool _ i x hpools hx3
    · exact hrf x (buildSequenceFromPool_subset sh hsh _ _ _ x hx3)
  · simp only [if_neg hlt] at hx2
    exact buildSegments_subset sh hsh basePool _ i x hpools hx2

/-- Splicing one element in grows the list by one. -/
theorem spliceInsert_length (l : List String) (i : ℕ) (x : String) :
    (spliceInsert l i x).length = l.length + 1 := by
  unfold spliceInsert
  rw [List.length_append, List.length_take, List.length_cons, List.length_drop]
  omega

/-- The boss-insertion loop grows the support sequence by one per boss. -/
theorem foldl_splice_length (x : String) (g : List String → ℕ → ℕ) :
    ∀ n l, ((List.range n).foldl (fun acc k => spliceInsert acc (g acc k) x) l).length =
      l.length + n := by
  intro n
  induction n with
  | zero => intro l; simp
  | succ n ih =>
    intro l
    rw [List.range_succ, List.foldl_append, List.foldl_cons, List.foldl_nil,
      spliceInsert_length, ih]
    omega

/-- C3 (confirmed): for every enemy count, wave, theme and non-empty
available pool, the composed wave sequence — themed path, boss path with
splice insertion, and the all-boss fallback alike — has exactly the requested
length (assuming each shuffle call permutes its input). -/
theorem composeWave_length (sh : ℕ → List String → List String)
    (hsh : ∀ j l, (sh j l).Perm l) (i pick wave count : ℕ)
    (availableTypes : List String) (theme : WaveTheme) (isBossWave : Bool)
    (havail : availableTypes ≠ []) :
    (generateWaveComposition sh i pick wave count availableTypes theme isBossWave).1.length
      = count := by
  unfold generateWaveComposition
  simp only []
  by_cases hb : (isBossWave && !(getAvailableBossTypes wave).isEmpty) = true
  · simp only [if_pos hb]
    set bossCount := min count (max 1 (wave / 25)) with hbc
    set support := generateThemedComposition sh i (count - bossCount) availableTypes
      BOSS_SUPPORT_THEME with hsup
    have hsl : support.1.length = count - bossCount :=
      generateThemedComposition_length sh hsh i (count - bossCount) availableTypes
        BOSS_SUPPORT_THEME
    have hble : bossCount ≤ count := min_le_left _ _
    by_cases hse : support.1.isEmpty = true
    · simp only [if_pos hse, List.length_replicate]
      have : support.1.length = 0 := by simp [List.isEmpty_iff] at hse; simp [hse]
      omega
    · simp only [if_neg hse]
      rw [foldl_splice_length]
      omega
  · simp only [if_neg hb]
    exact generateThemedComposition_length sh hsh i count availableTypes theme

/-- Witness for C3: a boss wave (wave 10) asked for 13 enemies composes
exactly 13. -/
theorem composeWave_length_witness :
    (generateWaveComposition shId 0 0 10 13 (getAvailableEnemyTypes 10)
      BOSS_SUPPORT_THEME true).1.length = 13 :=
  composeWave_length shId (fun _ l => List.Perm.refl l) 0 0 10 13
    (getAvailableEnemyTypes 10) BOSS_SUPPORT_THEME true (by decide)

/-- The regular spawn pool never contains a boss-tagged archetype. -/
theorem getAvailableEnemyTypes_not_boss (wave : ℕ) :
    ∀ e ∈ getAvailableEnemyTypes wave, isBossId e = false := by
  intro e he
  unfold getAvailableEnemyTypes at he
  by_cases hav : (waveSystemEnemyIds.filter (fun enemyId =>
      match lookupEnemyConfig enemyId with
      | some config => decide (config.unlockWave ≤ wave) && !(isBossConfig config)
      | none => false)).isEmpty = true
  · simp only [hav, if_true] at he
    have : e = "goblin" := by simpa using he
    subst this
    decide
  · simp only [hav, Bool.false_eq_true, if_false] at he
    have hcond := List.of_mem_filter he
    unfold isBossId
    rcases hlook : lookupEnemyConfig e with _ | c
    · rfl
    · rw [hlook] at hcond
      simp at hcond
      simp [hcond.2]

/-- Every archetype in the boss pool is boss-tagged. -/
theorem getAvailableBossTypes_boss (wave : ℕ) :
    ∀ e ∈ getAvailableBossTypes wave, isBossId e = true := by
  intro e he
  unfold getAvailableBossTypes at he
  have hcond := List.of_mem_filter he
  unfold isBossId
  rcases hlook : lookupEnemyConfig e with _ | c
  · rw [hlook] at hcond
    simp at hcond
  · rw [hlook] at hcond
    simp at hcond
    simp [hcond.2]

/-- A themed composition over a boss-free pool contains no boss. -/
theorem themedComposition_no_boss (sh : ℕ → List String → List String)
    (hsh : ∀ j l, (sh j l).Perm l) (i count : ℕ) (availableTypes : List String)
    (theme : WaveTheme)
    (hav : ∀ e ∈ availableTypes, isBossId e = false) :
    List.countP isBossId (generateThemedComposition sh i count availableTypes theme).1 = 0 := by
  rw [List.countP_eq_zero]
  intro a ha
  have := generateThemedComposition_subset sh hsh i count availableTypes theme a ha
  by_cases he : availableTypes.isEmpty = true
  · simp only [he, if_true] at this
    have : a = "goblin" := by simpa using this
    subst this
    decide
  · simp only [he, Bool.false_eq_true, if_false] at this
    simp [hav a this]

/-- Splicing adds the new element's count. -/
theorem spliceInsert_countP (p : String → Bool) (l : List String) (i : ℕ) (x : String) :
    List.countP p (spliceInsert l i x) = List.countP p l + (if p x then 1 else 0) := by
  unfold spliceInsert
  rw [List.countP_append, List.countP_cons]
  conv_rhs => rw [← List.take_append_drop i l, List.countP_append]
  by_cases hp : p x <;> simp [hp] <;> omega

/-- The boss-insertion loop adds exactly `n` matches for a matching boss. -/
theorem foldl_splice_countP (p : String → Bool) (x : String) (hx : p x = true)
    (g : List String → ℕ → ℕ) :
    ∀ n l, List.countP p ((List.range n).foldl (fun acc k => spliceInsert acc (g acc k) x) l) =
      List.countP p l + n := by
  intro n
  induction n with
  | zero => intro l; simp
  | succ n ih =>
    intro l
    rw [List.range_succ, List.foldl_append, List.foldl_cons, List.foldl_nil,
      spliceInsert_countP, ih, hx]
    simp
    omega

/-- A boss wave with an unlocked boss spawns exactly
`min(count, max(1, wave/25))` bosses. -/
theorem bossWave_boss_count (wave count : ℕ) (sh : ℕ → List String → List String)
    (hsh : ∀ j l, (sh j l).Perm l) (i pick : ℕ) (theme : WaveTheme)
    (hB : getAvailableBossTypes wave ≠ []) :
    List.countP isBossId (generateWaveComposition sh i pick wave count
      (getAvailableEnemyTypes wave) theme true).1 = min count (max 1 (wave / 25)) := by
  unfold generateWaveComposition
  have hBe : (getAvailableBossTypes wave).isEmpty = false := by
    simpa [List.isEmpty_iff] using hB
  simp only [hBe, Bool.not_false, Bool.and_true, if_pos]
  set bossCount := min count (max 1 (wave / 25)) with hbc
  set bossType := (getAvailableBossTypes wave).getD
    (pick % (getAvailableBossTypes wave).length) "goblin" with hbt
  have hbmem : bossType ∈ getAvailableBossTypes wave := by
    rw [hbt, List.getD_eq_getElem _ _ (Nat.mod_lt _ (List.length_pos.mpr hB))]
    exact List.getElem_mem _
  have hbboss : isBossId bossType = true := getAvailableBossTypes_boss wave bossType hbmem
  set remaining := count - bossCount with hrem
  set support := generateThemedComposition sh i remaining (getAvailableEnemyTypes wave)
    BOSS_SUPPORT_THEME with hsup
  have hs0 : List.countP isBossId support.1 = 0 :=
    themedComposition_no_boss sh hsh i remaining (getAvailableEnemyTypes wave)
      BOSS_SUPPORT_THEME (getAvailableEnemyTypes_not_boss wave)
  by_cases hse : support.1.isEmpty = true
  · simp only [if_pos hse]
    induction bossCount with
    | zero => simp
    | succ n ihn => simp [List.replicate_succ, List.countP_cons, hbboss] at ihn ⊢; omega
  · simp only [if_neg hse]
    rw [foldl_splice_countP isBossId bossType hbboss, hs0]
    omega

/-- C9 (confirmed): no boss-tagged archetype appears in the regular spawn
pool, and every entry of a non-boss wave's composed sequence is a non-boss
archetype (zero boss entries). -/
theorem regularPool_excludes_boss (wave : ℕ) (sh : ℕ → List String → List String)
    (hsh : ∀ j l, (sh j l).Perm l) (i pick count : ℕ) (theme : WaveTheme) :
    (∀ e ∈ getAvailableEnemyTypes wave, isBossId e = false) ∧
    List.countP isBossId (generateWaveComposition sh i pick wave count
      (getAvailableEnemyTypes wave) theme false).1 = 0 := by
  refine ⟨getAvailableEnemyTypes_not_boss wave, ?_⟩
  unfold generateWaveComposition
  simp only [Bool.false_and, Bool.false_eq_true, if_false]
  exact themedComposition_no_boss sh hsh i count (getAvailableEnemyTypes wave) theme
    (getAvailableEnemyTypes_not_boss wave)

/-- Witness for C9: a concrete non-boss wave (wave 12, 27 enemies) has zero
boss entries. -/
theorem regularPool_excludes_boss_witness :
    List.countP isBossId (generateWaveComposition shId 0 0 12 27
      (getAvailableEnemyTypes 12) THEME_SWARM_PRESSURE false).1 = 0 :=
  (regularPool_excludes_boss 12 shId (fun _ l => List.Perm.refl l) 0 0 27
    THEME_SWARM_PRESSURE).2

/-- C7 (amended): a wave is a boss wave iff `wave % 10 = 0` and `wave > 0`,
and a boss wave with at least one unlocked boss archetype composes exactly
`min(enemyCount, max(1, floor(wave/25)))` boss entries — the boss count is
additionally capped by the wave's enemy count, so for small externally
supplied count multipliers it can fall short of `max(1, floor(wave/25))`. -/
theorem bossWave_rule (wave count : ℕ) (sh : ℕ → List String → List String)
    (hsh : ∀ j l, (sh j l).Perm l) (i pick : ℕ) (theme : WaveTheme)
    (hB : getAvailableBossTypes wave ≠ []) :
    (isBossWaveCheck wave = true ↔ (wave % 10 = 0 ∧ 0 < wave)) ∧
    List.countP isBossId (generateWaveComposition sh i pick wave count
      (getAvailableEnemyTypes wave) theme true).1 = min count (max 1 (wave / 25)) := by
  refine ⟨?_, bossWave_boss_count wave count sh hsh i pick theme hB⟩
  simp [isBossWaveCheck]

/-- Witness for C7: wave 10 with 27 enemies gets `min(27, max(1, 0)) = 1`
boss. -/
theorem bossWave_rule_witness :
    (isBossWaveCheck 10 = true ↔ (10 % 10 = 0 ∧ 0 < 10)) ∧
    List.countP isBossId (generateWaveComposition shId 0 0 10 27
      (getAvailableEnemyTypes 10) BOSS_SUPPORT_THEME true).1 = min 27 (max 1 (10 / 25)) :=
  bossWave_rule 10 27 shId (fun _ l => List.Perm.refl l) 0 0 BOSS_SUPPORT_THEME (by decide)

/-- Counterexample for C7 as stated: at wave 50 the claim demands
`max(1, floor(50/25)) = 2` bosses for every count multiplier, but a count
multiplier small enough to yield a 1-enemy wave composes only
`min(1, 2) = 1` boss entry. -/
theorem bossWave_rule_cex :
    List.countP isBossId (generateWaveComposition shId 0 0 50 1
      (getAvailableEnemyTypes 50) BOSS_SUPPORT_THEME true).1 = 1 ∧
    max 1 (50 / 25) = 2 := by
  constructor
  · have hbt : getAvailableBossTypes 50 = ["warlord", "dark_lord"] := by decide
    have hsupp : (generateThemedComposition shId 0 0 (getAvailableEnemyTypes 50)
        BOSS_SUPPORT_THEME).1 = [] := by
      unfold generateThemedComposition
      simp
    unfold generateWaveComposition
    rw [hbt]
    norm_num
    rw [hsupp]
    decide
  · decide

/-- Indexed timer map addressed by position. -/
theorem mapTimersFrom_get? (f : ℕ → TimerEvent → TimerEvent) :
    ∀ (l : List TimerEvent) (s j : ℕ),
      (mapTimersFrom f s l).get? j = (l.get? j).map (f (s + j)) := by
  intro l
  induction l with
  | nil => intro s j; simp [mapTimersFrom]
  | cons t ts ih =>
    intro s j
    cases j with
    | zero => simp [mapTimersFrom]
    | succ j =>
      simp only [mapTimersFrom, List.get?_cons_succ, ih (s + 1) j]
      have hsj : s + 1 + j = s + (j + 1) := by omega
      rw [hsj]

/-- Members of an indexed timer map come from some position of the input. -/
theorem mapTimersFrom_mem (f : ℕ → TimerEvent → TimerEvent) :
    ∀ (l : List TimerEvent) (s : ℕ) (x : TimerEvent), x ∈ mapTimersFrom f s l →
      ∃ j t, l.get? j = some t ∧ x = f (s + j) t := by
  intro l
  induction l with
  | nil => intro s x hx; simp [mapTimersFrom] at hx
  | cons t ts ih =>
    intro s x hx
    rw [mapTimersFrom] at hx
    rcases List.mem_cons.mp hx with hx2 | hx2
    · exact ⟨0, t, rfl, by simpa using hx2⟩
    · rcases ih (s + 1) x hx2 with ⟨j, u, hj, hu⟩
      exact ⟨j + 1, u, by simpa using hj, by rw [hu]; congr 1; omega⟩

/-- Unpacking the tracked-spawn-timers invariant. -/
theorem spawnTimersTracked_spec (s : WaveState) (htr : spawnTimersTracked s = true) :
    ∀ j t, s.timers.get? j = some t → isSpawnKind t.kind = true →
      s.data.spawnTimerIds.contains j = true := by
  intro j t hget hkind
  unfold spawnTimersTracked at htr
  rw [List.all_eq_true] at htr
  have hmem : (j, t) ∈ s.timers.enum := by
    rw [List.mk_mem_enum_iff_getElem?]
    simpa [← List.get?_eq_getElem?] using hget
  have := htr (j, t) hmem
  simpa [hkind] using this

/-- A destroyed timer is inert: the clock step leaves it and the state
alone. -/
theorem stepTimer_destroyed_spawn (dt : ℚ) (t : TimerEvent) (d : RuntimeData)
    (h : t.destroyed = true) : stepTimer dt t d = (t, d) := by
  unfold stepTimer
  simp [h]

/-- A completion-marker step never touches units or notifications. -/
theorem stepTimer_completion_quiet (dt : ℚ) (t : TimerEvent) (d : RuntimeData)
    (h : isSpawnKind t.kind = false) :
    (stepTimer dt t d).1.kind = t.kind ∧ (stepTimer dt t d).1.destroyed = t.destroyed ∧
    (stepTimer dt t d).2.enemies = d.enemies ∧ (stepTimer dt t d).2.events = d.events := by
  have hk : t.kind = TimerKind.completionMarker := by
    cases hk2 : t.kind with
    | spawn a sc => rw [hk2] at h; simp [isSpawnKind] at h
    | completionMarker => rfl
  unfold stepTimer
  simp only []
  split_ifs <;> simp [fireCallback, hk]

/-- When every spawn timer is destroyed, a clock tick spawns nothing and
emits nothing, and keeps every spawn timer destroyed. -/
theorem tickGo_quiet (dt : ℚ) :
    ∀ (ts : List TimerEvent) (d : RuntimeData),
      (∀ t ∈ ts, isSpawnKind t.kind = true → t.destroyed = true) →
      (tickGo dt ts d).2.enemies = d.enemies ∧ (tickGo dt ts d).2.events = d.events ∧
      (∀ t2 ∈ (tickGo dt ts d).1, isSpawnKind t2.kind = true → t2.destroyed = true) := by
  intro ts
  induction ts with
  | nil => intro d _; exact ⟨rfl, rfl, by simp [tickGo]⟩
  | cons t ts ih =>
    intro d hts
    rw [tickGo]
    by_cases hsk : isSpawnKind t.kind = true
    · have hdes : t.destroyed = true := hts t (List.mem_cons_self _ _) hsk
      rw [stepTimer_destroyed_spawn dt t d hdes]
      have hrest := ih d (fun u hu => hts u (List.mem_cons_of_mem _ hu))
      refine ⟨hrest.1, hrest.2.1, ?_⟩
      intro t2 ht2
      rcases List.mem_cons.mp ht2 with h2 | h2
      · subst h2; intro _; exact hdes
      · exact hrest.2.2 t2 h2
    · have hq := stepTimer_completion_quiet dt t d (by simpa using hsk)
      have hrest := ih (stepTimer dt t d).2 (fun u hu => hts u (List.mem_cons_of_mem _ hu))
      refine ⟨by rw [hrest.1, hq.2.2.1], by rw [hrest.2.1, hq.2.2.2], ?_⟩
      intro t2 ht2
      rcases List.mem_cons.mp ht2 with h2 | h2
      · subst h2
        intro hk2
        rw [hq.1] at hk2
        simp [hk2] at hsk
      · exact hrest.2.2 t2 h2

/-- After `clear`, every spawn timer of a tracked state is destroyed. -/
theorem clear_destroys_spawn (s : WaveState) (htr : spawnTimersTracked s = true) :
    ∀ t ∈ (clearRuntime s).timers, isSpawnKind t.kind = true → t.destroyed = true := by
  intro t ht hk
  rcases mapTimersFrom_mem _ _ _ _ ht with ⟨j, u, hj, hu⟩
  rw [Nat.zero_add] at hu
  by_cases hc : s.data.spawnTimerIds.contains j = true
  · have hc2 : j ∈ s.data.spawnTimerIds := by simpa using hc
    rw [hu]
    simp [hc2]
  · have hc2 : ¬ (j ∈ s.data.spawnTimerIds) := by simpa using hc
    rw [hu] at hk
    simp only [hc, Bool.false_eq_true, if_false] at hk
    have := spawnTimersTracked_spec s htr j u hj hk
    exact absurd (by simpa using this) hc2

/-- C6 (amended): every tracked, not-yet-dispatched spawn timer is
individually paused by `pauseSpawning` and unpaused by `resumeSpawning`
without its delay or accumulated elapsed time changing (so no remaining
delay is lost), and `clear` destroys every tracked spawn timer so that after
`clear()` no spawn callback ever fires (no unit is spawned and no
notification is emitted however the clock advances).  The
"spawning finished" completion marker, however, is scheduled WITHOUT being
pushed onto `spawnTimers`, so `pauseSpawning`, `resumeSpawning` and `clear`
all ignore it and its callback can still fire after `clear()` (see the
counterexample). -/
theorem waveTimers_pause_clear (s : WaveState) (htr : spawnTimersTracked s = true) :
    (∀ j t, s.data.spawnTimerIds.contains j = true → s.timers.get? j = some t →
      t.hasDispatched = false →
        (pauseSpawning s).timers.get? j = some { t with paused := true } ∧
        (resumeSpawning (pauseSpawning s)).timers.get? j = some { t with paused := false } ∧
        (clearRuntime s).timers.get? j = some { t with destroyed := true }) ∧
    (∀ dts, (clockTicks dts (clearRuntime s)).data.enemies = [] ∧
            (clockTicks dts (clearRuntime s)).data.events = s.data.events) := by
  constructor
  · intro j t hj hget hnd
    have hjm : j ∈ s.data.spawnTimerIds := by simpa using hj
    have hpause : (pauseSpawning s).timers.get? j = some { t with paused := true } := by
      unfold pauseSpawning
      simp only [mapTimersFrom_get?, Nat.zero_add, hget, Option.map_some]
      simp [hjm, hnd]
    refine ⟨hpause, ?_, ?_⟩
    · unfold resumeSpawning
      simp only [pauseSpawning, mapTimersFrom_get?, Nat.zero_add, hget, Option.map_some]
      simp [hjm, hnd]
    · unfold clearRuntime
      simp only [mapTimersFrom_get?, Nat.zero_add, hget, Option.map_some]
      simp [hjm]
  · intro dts
    have hinv : ∀ s2 : WaveState,
        (∀ t ∈ s2.timers, isSpawnKind t.kind = true → t.destroyed = true) →
        (clockTicks dts s2).data.enemies = s2.data.enemies ∧
        (clockTicks dts s2).data.events = s2.data.events := by
      induction dts with
      | nil => intro s2 _; exact ⟨rfl, rfl⟩
      | cons dt rest ih =>
        intro s2 hs2
        have hq := tickGo_quiet dt s2.timers s2.data hs2
        have hstep := ih (clockTick dt s2) (by
          intro t ht hk
          exact hq.2.2 t ht hk)
        unfold clockTicks at hstep ⊢
        simp only [List.foldl_cons]
        refine ⟨?_, ?_⟩
        · rw [hstep.1]
          exact hq.1
        · rw [hstep.2]
          exact hq.2.1
    have h1 := hinv (clearRuntime s) (clear_destroys_spawn s htr)
    refine ⟨?_, ?_⟩
    · rw [h1.1]
      rfl
    · rw [h1.2]
      rfl

/-- Witness for C6: in a concrete mid-wave state, pausing sets the tracked
spawn timer's paused flag with delay and elapsed intact, and after `clear`
plus a 2000ms tick no unit has been spawned. -/
theorem waveTimers_pause_clear_witness :
    (pauseSpawning sampleTimedState).timers.get? 0 =
      some ⟨500, 0, true, false, false, TimerKind.spawn "goblin" ⟨6, 1, 1, 1, 500⟩⟩ ∧
    (clockTicks [2000] (clearRuntime sampleTimedState)).data.enemies = [] := by
  have h := waveTimers_pause_clear sampleTimedState (by decide)
  exact ⟨(h.1 0 ⟨500, 0, false, false, false, TimerKind.spawn "goblin" ⟨6, 1, 1, 1, 500⟩⟩
    (by decide) rfl rfl).1, (h.2 [2000]).1⟩

/-- Counterexample for C6 as stated: after a concrete `startNextWave`, the
completion marker is not in `spawnTimers`, so `pauseSpawning` pauses nothing
(the marker keeps running) and after `clear()` a single clock tick still
dispatches the completion callback — the claim that pause covers the marker
and that no completion callback ever fires after `clear()` is false. -/
theorem completionMarker_not_cancelled_cex :
    (pauseSpawning cexStartedState).timers.countP (fun t => t.paused) = 0 ∧
    (clockTick 1 (clearRuntime cexStartedState)).timers.countP
      (fun t => t.hasDispatched && !(isSpawnKind t.kind)) = 1 := by
  have hboss : isBossWaveCheck 1 = false := rfl
  have htheme : getWaveTheme 1 (getAvailableEnemyTypes 1) false =
      ⟨"intro_swarm", "Intro Swarm", [.swarm], [.humanoid], [], 0.85, 0.15, 0, 1, 1.05⟩ := rfl
  have hcount : (getWaveScaling (fun _ => (-3 : ℚ)) (fun _ _ => 0) neutralDifficulty 1
      (some (getWaveTheme 1 (getAvailableEnemyTypes 1) false))).enemyCount = -3 := by
    rw [htheme]
    norm_num [getWaveScaling, neutralDifficulty]
  have hint : (getWaveScaling (fun _ => (-3 : ℚ)) (fun _ _ => 0) neutralDifficulty 1
      (some (getWaveTheme 1 (getAvailableEnemyTypes 1) false))).spawnInterval = 809 := by
    rw [htheme]
    norm_num [getWaveScaling, jsRound, neutralDifficulty]
  have hcomp : ∀ theme, (generateWaveComposition shId 0 0 1 0 (getAvailableEnemyTypes 1)
      theme false).1 = [] := by
    intro theme
    unfold generateWaveComposition
    simp only [Bool.false_and, Bool.false_eq_true, if_false]
    exact List.length_eq_zero.mp
      (generateThemedComposition_length shId (fun _ l => List.Perm.refl l) 0 0 _ _)
  have h3 : ((-3 : ℤ)).toNat = 0 := rfl
  have hstate : cexStartedState.timers =
      [⟨-309, 0, false, false, false, TimerKind.completionMarker⟩] ∧
      cexStartedState.data.spawnTimerIds = [] := by
    unfold cexStartedState startNextWave
    simp only [initialWaveState, Bool.false_eq_true, if_false, Nat.zero_add, hboss,
      hcount, h3, hcomp, hint, List.enum_nil, List.map_nil, List.length_nil,
      List.range'_zero, List.nil_append, List.append_nil]
    constructor
    · norm_num
    · trivial
  obtain ⟨ht, hid⟩ := hstate
  constructor
  · simp [pauseSpawning, ht, hid, mapTimersFrom]
  · simp only [clearRuntime, ht, hid, mapTimersFrom]
    simp only [clockTick, tickGo, stepTimer]
    norm_num [isSpawnKind]

end TinyKingdoms
